import Mathlib

/-!
Verification development for the `aqa-youtube-assistant` backend
(workspaces, projects and templates with case-insensitive uniqueness rules).

The definitions below are a shallow embedding of the Python source:

* `src/backend/app/models.py` — the storage-level uniqueness indexes
  (`uix_project_name_lower` over `lower(name)` alone, and the
  workspace-scoped template index from the alembic migration
  `4f8b5d4c7d3e_add_workspace_scope_to_templates.py`);
* `src/backend/app/schemas.py` — Pydantic field validation
  (length bounds, whitespace trimming, empty-to-null normalisation);
* `src/backend/app/main.py` — the workspace/project endpoint logic
  (duplicate pre-checks with `ilike`, constraint backstop, scoping);
* `src/backend/app/services.py` — the template service layer.

Databases are modelled as lists of records, timestamps as natural
numbers supplied by the caller (`now`), and HTTP failures as an
`Except` error carrying status code and detail string.  Definitions
whose doc comment starts with `Modelled from the spec:` embed code of
the repository that is referenced by tests and callers but whose
defining module is not part of the source tree snapshot.
-/

/-- An HTTP error response: status code plus the `detail` message body. -/
structure HTTPError where
  status : Nat
  detail : String
deriving DecidableEq, Repr

instance {ε α : Type} [DecidableEq ε] [DecidableEq α] :
    DecidableEq (Except ε α) := fun x y =>
  match x, y with
  | Except.ok a, Except.ok b =>
    if h : a = b then isTrue (by rw [h]) else isFalse (by simp [h])
  | Except.error e, Except.error f =>
    if h : e = f then isTrue (by rw [h]) else isFalse (by simp [h])
  | Except.ok _, Except.error _ => isFalse (by simp)
  | Except.error _, Except.ok _ => isFalse (by simp)

/-- SQL `lower()` (and Python `str.lower()`): character-wise lower-casing. -/
def strLower (s : String) : String :=
  String.mk (s.data.map Char.toLower)

/-- Python `str.strip()`: remove leading and trailing whitespace. -/
def strTrim (s : String) : String :=
  String.mk (((s.data.dropWhile Char.isWhitespace).reverse.dropWhile
    Char.isWhitespace).reverse)

/-- The `%` character of SQL LIKE patterns. -/
def percentChar : Char := Char.ofNat 37

/-- The `_` character of SQL LIKE patterns. -/
def underscoreChar : Char := Char.ofNat 95

/-- The opening-brace character used by the template placeholder grammar. -/
def lbraceChar : Char := Char.ofNat 123

/-- The closing-brace character used by the template placeholder grammar. -/
def rbraceChar : Char := Char.ofNat 125

/-- SQL LIKE pattern matching over character lists: `%` matches any
sequence (encoded as trying every possible number of consumed
characters), `_` matches any single character, every other pattern
character matches itself. -/
def likeMatch : List Char → List Char → Bool
  | [], s => s.isEmpty
  | p :: ps, s =>
    if p = percentChar then
      (List.range (s.length + 1)).any (fun k => likeMatch ps (s.drop k))
    else
      match s with
      | [] => false
      | c :: s2 => (p = underscoreChar || p = c) && likeMatch ps s2

/-- SQLAlchemy's `column.ilike(pattern)`: case-insensitive LIKE, i.e.
`lower(value) LIKE lower(pattern)`. -/
def ilike (value pattern : String) : Bool :=
  likeMatch (strLower pattern).data (strLower value).data

/-- A LIKE pattern always matches itself: every literal matches itself,
`_` matches the `_` character, and `%` can stand for the single `%`. -/
theorem likeMatch_self : ∀ l : List Char, likeMatch l l = true := by
  intro l
  induction l with
  | nil => rfl
  | cons c cs ih =>
    rw [likeMatch]
    by_cases hc : c = percentChar
    · simp only [if_pos hc]
      rw [List.any_eq_true]
      refine ⟨1, ?_, ?_⟩
      · simp
      · simpa using ih
    · simp only [if_neg hc]
      simp [ih]

/-- Case-insensitive self match: if two strings agree after lower-casing
then `ilike` holds between them. -/
theorem ilike_of_lower_eq {a b : String} (h : strLower a = strLower b) :
    ilike a b = true := by
  unfold ilike
  rw [h]
  exact likeMatch_self _

/-- State of the left-to-right placeholder scan: outside any token,
having just seen one opening brace, inside a token interior, or inside
having just seen one closing brace. -/
inductive PHState where
  | outside : PHState
  | sawOpen : PHState
  | inside (acc : List Char) : PHState
  | sawClose (acc : List Char) : PHState
deriving DecidableEq

/-- Modelled from the spec: one step of the placeholder scan of the
template content grammar (§4.2).  The `TemplateCreate` /
`TemplateUpdate` schemas are imported by `services.py` and exercised by
`unit_tests/test_template_schemas.py` but their defining module is not
in the source snapshot; the scan follows the spec's non-nested greedy
rule: a token opens at a literal `{{` and its interior ends at the
first following literal `}}`. -/
def phStep (st : PHState × List String) (c : Char) : PHState × List String :=
  match st with
  | (PHState.outside, toks) =>
    if c = lbraceChar then (PHState.sawOpen, toks) else (PHState.outside, toks)
  | (PHState.sawOpen, toks) =>
    if c = lbraceChar then (PHState.inside [], toks) else (PHState.outside, toks)
  | (PHState.inside acc, toks) =>
    if c = rbraceChar then (PHState.sawClose acc, toks)
    else (PHState.inside (c :: acc), toks)
  | (PHState.sawClose acc, toks) =>
    if c = rbraceChar then (PHState.outside, String.mk acc.reverse :: toks)
    else (PHState.inside (c :: rbraceChar :: acc), toks)

/-- The list of `{{ ... }}` token interiors of a content string, in
order of appearance; an opening `{{` that never closes contributes
nothing (§4.2 rule 3). -/
def placeholders (content : String) : List String :=
  ((content.data.foldl phStep (PHState.outside, [])).2).reverse

/-- Modelled from the spec: the template content placeholder validator
(§4.2, `TemplateCreate.validate_placeholders`, absent from the source
snapshot).  Every delimited token must have a non-whitespace interior,
and at least one delimited token must exist. -/
def validate_placeholders (content : String) : Except String Unit :=
  if (placeholders content).any (fun p => strTrim p = "") then
    Except.error ("Template placeholders cannot be empty or contain only whitespace")
  else if (placeholders content).isEmpty then
    Except.error ("Template content must contain at least one placeholder")
  else Except.ok ()

/-- Pydantic validation of a required free-text identifying field
(schemas.py `trim_name` plus the `Field` length bounds): length bounds
are checked on the raw value, then whitespace is trimmed and a
whitespace-only value is rejected. -/
def validateName (v : String) (maxLen : Nat) (label : String) :
    Except HTTPError String :=
  if v.length < 1 then
    Except.error ⟨422, s!"{label} must have at least 1 character"⟩
  else if maxLen < v.length then
    Except.error ⟨422, s!"{label} must have at most {maxLen} characters"⟩
  else if strTrim v = "" then
    Except.error ⟨422, s!"{label} cannot be empty or only whitespace"⟩
  else Except.ok (strTrim v)

/-- Pydantic validation of an optional free-text field (schemas.py
`empty_to_null` plus the `Field` length bound): the length bound is
checked on the raw value and an empty string becomes null. -/
def validateOptText : Option String → Nat → String →
    Except HTTPError (Option String)
  | none, _, _ => Except.ok none
  | some s, maxLen, label =>
    if maxLen < s.length then
      Except.error ⟨422, s!"{label} must have at most {maxLen} characters"⟩
    else if s = "" then Except.ok none
    else Except.ok (some s)

/-- Raw payload of `POST /api/workspaces` (schemas.py `WorkspaceCreate`). -/
structure WorkspaceCreateRaw where
  name : String
  description : Option String
deriving DecidableEq

/-- Validated workspace creation data. -/
structure WorkspaceData where
  name : String
  description : Option String
deriving DecidableEq

/-- schemas.py `WorkspaceCreate`: name 1–100 characters and trimmed,
description at most 500 characters with empty mapped to null. -/
def validateWorkspaceCreate (r : WorkspaceCreateRaw) :
    Except HTTPError WorkspaceData := do
  let n ← validateName r.name 100 "Workspace name"
  let d ← validateOptText r.description 500 "Workspace description"
  return ⟨n, d⟩

/-- Raw payload of `POST /api/projects` (schemas.py `ProjectCreate`).
The `video_title` member is modelled from the spec: the field is read
by `main.py:create_project` and exercised by the integration tests but
is absent from the `ProjectBase` schema in the source snapshot. -/
structure ProjectCreateRaw where
  name : String
  description : Option String
  status : Option String
  video_title : Option String
deriving DecidableEq

/-- Validated project creation data. -/
structure ProjectData where
  name : String
  description : Option String
  status : String
  video_title : Option String
deriving DecidableEq

/-- Modelled from the spec: validation of the optional `video_title`
field (at most 500 characters, empty mapped to null); the field is
absent from the `ProjectCreate`/`ProjectUpdate` schemas in the source
snapshot but required by `main.py` and the integration tests. -/
def validateVideoTitle (v : Option String) : Except HTTPError (Option String) :=
  validateOptText v 500 "Video title"

/-- schemas.py `ProjectCreate`: name 1–255 characters and trimmed,
description at most 2000 characters with empty mapped to null, status
defaulting to planned, plus the spec-modelled `video_title` rule. -/
def validateProjectCreate (r : ProjectCreateRaw) :
    Except HTTPError ProjectData := do
  let n ← validateName r.name 255 "Project name"
  let d ← validateOptText r.description 2000 "Project description"
  let vt ← validateVideoTitle r.video_title
  return ⟨n, d, r.status.getD "planned", vt⟩

/-- Raw payload of `PUT /api/projects/:id` (schemas.py `ProjectUpdate`):
an outer `none` means the field is absent from the patch; for the
nullable fields the inner option is the submitted value. -/
structure ProjectUpdateRaw where
  name : Option String
  description : Option (Option String)
  status : Option String
  video_title : Option (Option String)
deriving DecidableEq

/-- Validated partial patch for a project. -/
structure ProjectUpdateData where
  name : Option String
  description : Option (Option String)
  status : Option String
  video_title : Option (Option String)
deriving DecidableEq

/-- schemas.py `ProjectUpdate`: each supplied field is validated exactly
as on create; absent fields stay absent. -/
def validateProjectUpdate (r : ProjectUpdateRaw) :
    Except HTTPError ProjectUpdateData := do
  let n ← match r.name with
    | none => pure none
    | some v => do pure (some (← validateName v 255 "Project name"))
  let d ← match r.description with
    | none => pure none
    | some dv => do pure (some (← validateOptText dv 2000 "Project description"))
  let vt ← match r.video_title with
    | none => pure none
    | some vv => do pure (some (← validateVideoTitle vv))
  return ⟨n, d, r.status, vt⟩

/-- Raw payload of `POST /api/templates` (the `TemplateCreate` schema). -/
structure TemplateCreateRaw where
  type : String
  name : String
  content : String
deriving DecidableEq

/-- Validated template creation data. -/
structure TemplateData where
  type : String
  name : String
  content : String
deriving DecidableEq

/-- Modelled from the spec: validation of the template content field
(`TemplateCreate`, absent from the source snapshot): at most 256
characters on the raw value, trimmed, non-empty after trimming, and
the placeholder grammar of §4.2 must hold on the trimmed value. -/
def validateContent (v : String) : Except HTTPError String :=
  if v.length < 1 then
    Except.error ⟨422, "Template content must have at least 1 character"⟩
  else if 256 < v.length then
    Except.error ⟨422, "Template content must have at most 256 characters"⟩
  else if strTrim v = "" then
    Except.error ⟨422, "Template content cannot be empty or only whitespace"⟩
  else
    match validate_placeholders (strTrim v) with
    | Except.error m => Except.error ⟨422, m⟩
    | Except.ok _ => Except.ok (strTrim v)

/-- Modelled from the spec: the `TemplateCreate` schema (absent from the
source snapshot, exercised by `unit_tests/test_template_schemas.py`):
type at most 50 characters, name 1–100 characters and trimmed, content
validated by `validateContent`. -/
def validateTemplateCreate (r : TemplateCreateRaw) :
    Except HTTPError TemplateData := do
  let ty ←
    if r.type.length < 1 then
      Except.error (⟨422, "Template type must have at least 1 character"⟩ : HTTPError)
    else if 50 < r.type.length then
      Except.error (⟨422, "Template type must have at most 50 characters"⟩ : HTTPError)
    else pure r.type
  let n ← validateName r.name 100 "Template name"
  let c ← validateContent r.content
  return ⟨ty, n, c⟩

/-- A row of the `workspaces` table (models.py `Workspace`). -/
structure WorkspaceRec where
  id : Nat
  name : String
  description : Option String
  created_at : Nat
  updated_at : Nat
deriving DecidableEq

/-- A row of the `projects` table (models.py `Project`, including the
`video_title` column from migration `9c20c5e9a908`). -/
structure ProjectRec where
  id : Nat
  name : String
  description : Option String
  status : String
  video_title : Option String
  workspace_id : Nat
  created_at : Nat
  updated_at : Nat
deriving DecidableEq

/-- A row of the `templates` table with the `workspace_id` column added
by migration `4f8b5d4c7d3e` (used throughout `services.py`). -/
structure TemplateRec where
  id : Nat
  type : String
  name : String
  content : String
  workspace_id : Nat
  created_at : Nat
  updated_at : Nat
deriving DecidableEq

/-- The persistent store: the three entity tables in insertion order. -/
structure DB where
  workspaces : List WorkspaceRec
  projects : List ProjectRec
  templates : List TemplateRec
deriving DecidableEq

/-- The storage-level unique index `uix_project_name_lower` of
models.py: it is a functional unique index over `lower(name)` alone,
with no workspace component.  An insert or update violates it exactly
when another row has the same lower-cased name, in any workspace. -/
def projectIndexViolation (ps : List ProjectRec) (excludeId : Option Nat)
    (name : String) : Bool :=
  ps.any (fun q =>
    (match excludeId with
     | some i => q.id != i
     | none => true) &&
    strLower q.name == strLower name)

/-- The storage-level unique index
`uix_template_workspace_type_content_lower` created by migration
`4f8b5d4c7d3e`: unique over `(workspace_id, type, lower(content))`. -/
def templateIndexViolation (ts : List TemplateRec) (excludeId : Option Nat)
    (wsId : Nat) (ty cont : String) : Bool :=
  ts.any (fun u =>
    (match excludeId with
     | some i => u.id != i
     | none => true) &&
    u.workspace_id == wsId && u.type == ty &&
    strLower u.content == strLower cont)

/-- main.py `get_workspace_id`: the `X-Workspace-Id` header defaults to
workspace 1 when absent or falsy. -/
def get_workspace_id (header : Option Nat) : Nat :=
  match header with
  | none => 1
  | some v => if v = 0 then 1 else v

/-- Does a workspace row with the given id exist? -/
def workspaceExists (db : DB) (wsId : Nat) : Bool :=
  db.workspaces.any (fun w => w.id == wsId)

/-- main.py `create_workspace`: validate, reject an exact duplicate
name (the storage unique constraint on `name` checks the same
predicate, so the `IntegrityError` fallback reports the identical
error), then insert with both timestamps set by the store. -/
def create_workspace_checked (db : DB) (d : WorkspaceData) (now nextId : Nat) :
    Except HTTPError (DB × WorkspaceRec) :=
  if db.workspaces.any (fun w => w.name == d.name) then
    Except.error ⟨400, s!"A workspace named \x27{d.name}\x27 already exists"⟩
  else
    Except.ok
      ({ db with workspaces :=
          db.workspaces ++ [⟨nextId, d.name, d.description, now, now⟩] },
       (⟨nextId, d.name, d.description, now, now⟩ : WorkspaceRec))

/-- main.py `create_workspace` under the FastAPI request pipeline:
schema validation runs first and never touches the store. -/
def create_workspace (db : DB) (r : WorkspaceCreateRaw) (now nextId : Nat) :
    Except HTTPError (DB × WorkspaceRec) :=
  match validateWorkspaceCreate r with
  | Except.error e => Except.error e
  | Except.ok d => create_workspace_checked db d now nextId

/-- main.py `update_workspace`: fetch (404), forbid renaming the
default workspace (403), pre-check an exact duplicate name excluding
the row itself (400), apply only the supplied fields, recompute
`updated_at`, and let the storage unique constraint on `name` back the
pre-check up (400 via `IntegrityError`). -/
structure WorkspaceUpdateData where
  name : Option String
  description : Option (Option String)
deriving DecidableEq

/-- main.py `update_workspace` (see `WorkspaceUpdateData`). -/
def update_workspace (db : DB) (wsId : Nat) (patch : WorkspaceUpdateData)
    (now : Nat) : Except HTTPError (DB × WorkspaceRec) :=
  match db.workspaces.find? (fun w => w.id == wsId) with
  | none => Except.error ⟨404, s!"Workspace with id {wsId} not found"⟩
  | some cur =>
    if wsId == 1 && patch.name.isSome then
      Except.error ⟨403, "Cannot rename the default workspace"⟩
    else
      let preDup := match patch.name with
        | some nm => db.workspaces.any (fun w => w.name == nm && w.id != wsId)
        | none => false
      if preDup then
        Except.error ⟨400,
          "A workspace named \x27" ++ patch.name.getD cur.name ++ "\x27 already exists"⟩
      else
        let newRec : WorkspaceRec := { cur with
          name := patch.name.getD cur.name,
          description := patch.description.getD cur.description,
          updated_at := now }
        if db.workspaces.any (fun w => w.id != wsId && w.name == newRec.name) then
          Except.error ⟨400, s!"A workspace named \x27{newRec.name}\x27 already exists"⟩
        else
          Except.ok
            ({ db with workspaces :=
                db.workspaces.map (fun w => if w.id == wsId then newRec else w) },
             newRec)

/-- main.py `delete_workspace`: fetch (404), forbid deleting the
default workspace (403), reject when the workspace still owns projects
(400, reporting the count), otherwise remove the row (the `CASCADE`
foreign keys also remove any dependent rows). -/
def delete_workspace (db : DB) (wsId : Nat) : Except HTTPError DB :=
  match db.workspaces.find? (fun w => w.id == wsId) with
  | none => Except.error ⟨404, s!"Workspace with id {wsId} not found"⟩
  | some _ =>
    if wsId == 1 then
      Except.error ⟨403, "Cannot delete the default workspace"⟩
    else
      let n := (db.projects.filter (fun p => p.workspace_id == wsId)).length
      if 0 < n then
        Except.error
          ⟨400, s!"Cannot delete workspace with {n} project(s). Move or delete projects first."⟩
      else
        Except.ok { db with
          workspaces := db.workspaces.filter (fun w => !(w.id == wsId)),
          projects := db.projects.filter (fun p => !(p.workspace_id == wsId)),
          templates := db.templates.filter (fun t => !(t.workspace_id == wsId)) }

/-- main.py `create_project`: validate, require the scoped workspace to
exist (404), pre-check duplicates with `name ILIKE submitted` within
the workspace (409), then insert; the insert itself is additionally
guarded by the global functional index `uix_project_name_lower`, whose
`IntegrityError` is reported as the same 409 conflict. -/
def create_project_checked (db : DB) (d : ProjectData) (wsId now nextId : Nat) :
    Except HTTPError (DB × ProjectRec) :=
  if !(workspaceExists db wsId) then
    Except.error ⟨404, s!"Workspace with id {wsId} not found"⟩
  else if db.projects.any (fun q => ilike q.name d.name && q.workspace_id == wsId) then
    Except.error ⟨409, s!"A project named \x27{d.name}\x27 already exists"⟩
  else if projectIndexViolation db.projects none d.name then
    Except.error ⟨409, s!"A project named \x27{d.name}\x27 already exists"⟩
  else
    Except.ok
      ({ db with projects :=
          db.projects ++
            [⟨nextId, d.name, d.description, d.status, d.video_title, wsId, now, now⟩] },
       (⟨nextId, d.name, d.description, d.status, d.video_title, wsId, now, now⟩ :
         ProjectRec))

/-- main.py `create_project` under the FastAPI request pipeline:
schema validation runs first and never touches the store. -/
def create_project (db : DB) (r : ProjectCreateRaw) (wsId now nextId : Nat) :
    Except HTTPError (DB × ProjectRec) :=
  match validateProjectCreate r with
  | Except.error e => Except.error e
  | Except.ok d => create_project_checked db d wsId now nextId

/-- main.py `get_project`: a single query filtered by id and the scoped
workspace; any miss is the same 404. -/
def get_project (db : DB) (pid wsId : Nat) : Except HTTPError ProjectRec :=
  match db.projects.find? (fun p => p.id == pid && p.workspace_id == wsId) with
  | none => Except.error ⟨404, s!"Project with id {pid} not found"⟩
  | some p => Except.ok p

/-- Applying a partial patch to a project row: only the fields present
in the patch change, and `updated_at` is recomputed by the store. -/
def applyProjectPatch (patch : ProjectUpdateData) (cur : ProjectRec)
    (now : Nat) : ProjectRec :=
  { cur with
    name := patch.name.getD cur.name,
    description := patch.description.getD cur.description,
    status := patch.status.getD cur.status,
    video_title := patch.video_title.getD cur.video_title,
    updated_at := now }

/-- The placeholder main.py substitutes when a patch without a name
still produces a conflict message (`update_data.get` fallback). -/
def unknownName : String := "unknown"

/-- main.py `update_project`: fetch scoped by workspace (404), when the
patch carries a name pre-check `name ILIKE new-name` within the
workspace excluding the row itself (409), apply only the supplied
fields, recompute `updated_at`, and let the global functional index
`uix_project_name_lower` back the pre-check up (409 via
`IntegrityError`). -/
def update_project_found (db : DB) (pid : Nat) (patch : ProjectUpdateData)
    (wsId now : Nat) (cur : ProjectRec) : Except HTTPError (DB × ProjectRec) :=
  if (match patch.name with
      | some nm =>
        db.projects.any (fun q =>
          ilike q.name nm && q.id != pid && q.workspace_id == wsId)
      | none => false) then
    Except.error ⟨409,
      "A project named \x27" ++ patch.name.getD unknownName ++ "\x27 already exists"⟩
  else if projectIndexViolation db.projects (some pid)
      (applyProjectPatch patch cur now).name then
    Except.error ⟨409,
      "A project named \x27" ++ patch.name.getD unknownName ++ "\x27 already exists"⟩
  else
    Except.ok
      ({ db with projects :=
          db.projects.map (fun q =>
            if q.id == pid then applyProjectPatch patch cur now else q) },
       applyProjectPatch patch cur now)

/-- main.py `update_project`, entry point: the scoped fetch, then the
body `update_project_found` on the fetched row. -/
def update_project (db : DB) (pid : Nat) (patch : ProjectUpdateData)
    (wsId now : Nat) : Except HTTPError (DB × ProjectRec) :=
  match db.projects.find? (fun p => p.id == pid && p.workspace_id == wsId) with
  | none => Except.error ⟨404, s!"Project with id {pid} not found"⟩
  | some cur => update_project_found db pid patch wsId now cur

/-- services.py `TemplateService.check_duplicate_content`:
case-insensitive content match scoped to `(workspace_id, type)`, with
an optional `exclude_id` so updates ignore self-collision.  Returns the
first conflicting row if any. -/
def check_duplicate_content (ts : List TemplateRec) (ty cont : String)
    (wsId : Nat) (excludeId : Option Nat) : Option TemplateRec :=
  ts.find? (fun u =>
    u.workspace_id == wsId && u.type == ty &&
    strLower u.content == strLower cont &&
    (match excludeId with
     | some i => u.id != i
     | none => true))

/-- Partial patch for a template (the `TemplateUpdate` schema, whose
module is absent from the source snapshot): `none` means the field is
absent from the patch; supplied values have already been validated
(trimmed, non-empty, placeholder grammar for content). -/
structure TemplateUpdateData where
  type : Option String
  name : Option String
  content : Option String
deriving DecidableEq

/-- services.py `TemplateService.create_template`: require the scoped
workspace to exist (404), pre-check `check_duplicate_content` (409,
naming the conflicting row's id), then insert; the insert is backed by
the unique index `uix_template_workspace_type_content_lower`, whose
`IntegrityError` is reported as a generic 409. -/
def create_template (db : DB) (d : TemplateData) (wsId now nextId : Nat) :
    Except HTTPError (DB × TemplateRec) :=
  if !(workspaceExists db wsId) then
    Except.error ⟨404, s!"Workspace with id {wsId} not found"⟩
  else
    match check_duplicate_content db.templates d.type d.content wsId none with
    | some ex =>
      Except.error ⟨409,
        "Template with this content already exists (ID: " ++ toString ex.id ++ ")"⟩
    | none =>
      if templateIndexViolation db.templates none wsId d.type d.content then
        Except.error ⟨409, "Template with this content already exists"⟩
      else
        Except.ok
          ({ db with templates :=
              db.templates ++ [⟨nextId, d.type, d.name, d.content, wsId, now, now⟩] },
           (⟨nextId, d.type, d.name, d.content, wsId, now, now⟩ : TemplateRec))

/-- services.py `TemplateService.update_template`: fetch scoped by
workspace (404), when the patch carries a type or content pre-check
`check_duplicate_content` on the effective `(type, content)` pair
excluding the row itself (409), apply only the supplied fields, and
let the unique index `uix_template_workspace_type_content_lower` back
the pre-check up (409 via `IntegrityError`); `updated_at` is recomputed
by the store's `onupdate` hook.  `applyTemplatePatch` is the
apply-only-supplied-fields step shared by the statement of the
invariants. -/
def applyTemplatePatch (patch : TemplateUpdateData) (cur : TemplateRec)
    (now : Nat) : TemplateRec :=
  { cur with
    type := patch.type.getD cur.type,
    name := patch.name.getD cur.name,
    content := patch.content.getD cur.content,
    updated_at := now }

/-- services.py `TemplateService.update_template`, body applied to the
fetched row: the duplicate pre-check runs only when the patch carries a
type or content, on the effective values, excluding the row itself. -/
def update_template_found (db : DB) (tid : Nat) (patch : TemplateUpdateData)
    (wsId now : Nat) (cur : TemplateRec) : Except HTTPError (DB × TemplateRec) :=
  match (if patch.type.isSome || patch.content.isSome then
      check_duplicate_content db.templates (patch.type.getD cur.type)
        (patch.content.getD cur.content) wsId (some tid)
    else none) with
  | some ex =>
    Except.error ⟨409,
      "Template with this content already exists (ID: " ++ toString ex.id ++ ")"⟩
  | none =>
    if templateIndexViolation db.templates (some tid) wsId
        (applyTemplatePatch patch cur now).type
        (applyTemplatePatch patch cur now).content then
      Except.error ⟨409, "Template with this content already exists"⟩
    else
      Except.ok
        ({ db with templates :=
            db.templates.map (fun u =>
              if u.id == tid then applyTemplatePatch patch cur now else u) },
         applyTemplatePatch patch cur now)

/-- services.py `TemplateService.update_template`, entry point: the
scoped fetch, then `update_template_found` on the fetched row. -/
def update_template (db : DB) (tid : Nat) (patch : TemplateUpdateData)
    (wsId now : Nat) : Except HTTPError (DB × TemplateRec) :=
  match db.templates.find? (fun t => t.id == tid && t.workspace_id == wsId) with
  | none => Except.error ⟨404, "Template not found"⟩
  | some cur => update_template_found db tid patch wsId now cur

/-- Two template rows collide when they share workspace, type and
lower-cased content; the invariant forbids collision between any two
distinct rows. -/
def templRel (a b : TemplateRec) : Prop :=
  ¬(a.workspace_id = b.workspace_id ∧ a.type = b.type ∧
    strLower a.content = strLower b.content)

instance (a b : TemplateRec) : Decidable (templRel a b) := by
  unfold templRel
  infer_instance

theorem templRel_symm {a b : TemplateRec} (h : templRel a b) : templRel b a := by
  unfold templRel at h ⊢
  intro hc
  exact h ⟨hc.1.symm, hc.2.1.symm, hc.2.2.symm⟩

/-- The template uniqueness invariant of the spec: within one workspace
and one type no two templates have content strings equal under
case-insensitive comparison. -/
def templateInvariant (db : DB) : Prop :=
  db.templates.Pairwise templRel

/-- Distinctness of primary keys in the templates table. -/
def templateIdsDistinct (db : DB) : Prop :=
  db.templates.Pairwise (fun a b => a.id ≠ b.id)

/-- Distinctness of primary keys in the projects table. -/
def projectIdsDistinct (db : DB) : Prop :=
  db.projects.Pairwise (fun a b => a.id ≠ b.id)

instance (db : DB) : Decidable (templateInvariant db) := by
  unfold templateInvariant
  infer_instance

instance (db : DB) : Decidable (templateIdsDistinct db) := by
  unfold templateIdsDistinct
  infer_instance

instance (db : DB) : Decidable (projectIdsDistinct db) := by
  unfold projectIdsDistinct
  infer_instance

/-- Concrete store for the cross-workspace collision scenario: the
default workspace plus a second workspace owning a project `abc`. -/
def dbCross : DB :=
  ⟨[⟨1, "Default Workspace", none, 0, 0⟩, ⟨2, "Other", none, 0, 0⟩],
   [⟨1, "abc", none, "planned", none, 2, 0, 0⟩], []⟩

/-- C1: the application pre-check is workspace-scoped and passes for a
name that only exists in another workspace, but the storage index
`uix_project_name_lower` of models.py covers `lower(name)` alone, so
the insert is rejected and the create returns a 409 conflict — against
the claim (and main.py's own comments) that names may collide freely
across workspaces. -/
theorem create_project_cross_workspace_rejected_by_global_index :
    dbCross.projects.any (fun q => ilike q.name "abc" && q.workspace_id == 1) = false ∧
    projectIndexViolation dbCross.projects none "abc" = true ∧
    create_project dbCross ⟨"abc", none, none, none⟩ 1 5 2 =
      Except.error ⟨409, "A project named \x27abc\x27 already exists"⟩ := by
  decide

/-- Concrete store for the wildcard scenarios: one workspace containing
projects named `abc` and `xy`. -/
def dbWild : DB :=
  ⟨[⟨1, "Default Workspace", none, 0, 0⟩],
   [⟨1, "abc", none, "planned", none, 1, 0, 0⟩,
    ⟨2, "xy", none, "planned", none, 1, 0, 0⟩], []⟩

/-- C10: the duplicate pre-check uses `name ILIKE submitted-name`, so
`%` and `_` in a submitted name act as wildcards: with a project `abc`
in the workspace, creating `a%` or `a_c` is rejected as a duplicate,
and updating another project's name to `a%` is rejected too, although
none of these names is case-insensitively equal to `abc`. -/
theorem ilike_wildcards_in_duplicate_precheck :
    strLower "a%" ≠ strLower "abc" ∧
    create_project dbWild ⟨"a%", none, none, none⟩ 1 5 3 =
      Except.error ⟨409, "A project named \x27a%\x27 already exists"⟩ ∧
    strLower "a_c" ≠ strLower "abc" ∧
    create_project dbWild ⟨"a_c", none, none, none⟩ 1 5 3 =
      Except.error ⟨409, "A project named \x27a_c\x27 already exists"⟩ ∧
    update_project dbWild 2 ⟨some "a%", none, none, none⟩ 1 5 =
      Except.error ⟨409, "A project named \x27a%\x27 already exists"⟩ := by
  decide

/-- C5: when no project row carries the requested id inside the scoped
workspace — in particular when the project exists but belongs to a
different workspace — the GET returns the same 404 response produced
for an id that does not exist at all. -/
theorem get_project_scoping_opaque (db : DB) (pid wsA wsB : Nat)
    (p : ProjectRec) (hids : projectIdsDistinct db) (hp : p ∈ db.projects)
    (hid : p.id = pid) (hws : p.workspace_id = wsA) (hne : wsA ≠ wsB) :
    get_project db pid wsB =
      Except.error ⟨404, s!"Project with id {pid} not found"⟩ ∧
    get_project db pid wsB =
      get_project
        { db with projects := db.projects.filter (fun q => !(q.id == pid)) }
        pid wsB := by
  have hnone :
      db.projects.find? (fun q => q.id == pid && q.workspace_id == wsB) = none := by
    rw [List.find?_eq_none]
    intro q hq hpred
    simp only [Bool.and_eq_true, beq_iff_eq] at hpred
    by_cases hqp : q = p
    · subst hqp
      exact hne (hws ▸ hpred.2.symm ▸ rfl)
    · have hsym : Symmetric (fun a b : ProjectRec => a.id ≠ b.id) := by
        intro a b hab
        exact fun h => hab h.symm
      have := (List.Pairwise.forall hsym hids) hq hp hqp
      exact this (hpred.1.trans hid.symm)
  have hnone2 :
      (db.projects.filter (fun q => !(q.id == pid))).find?
        (fun q => q.id == pid && q.workspace_id == wsB) = none := by
    rw [List.find?_eq_none]
    intro q hq hpred
    simp only [Bool.and_eq_true, beq_iff_eq] at hpred
    have := List.of_mem_filter hq
    simp only [Bool.not_eq_true', beq_eq_false_iff_ne] at this
    exact this hpred.1
  constructor
  · unfold get_project
    rw [hnone]
  · unfold get_project
    rw [hnone]
    simp only
    rw [hnone2]

/-- Concrete store for the C5 witness: project 7 lives in workspace 2
and is requested with workspace scope 1. -/
def dbScope : DB :=
  ⟨[⟨1, "Default Workspace", none, 0, 0⟩, ⟨2, "Other", none, 0, 0⟩],
   [⟨7, "Foo", none, "planned", none, 2, 0, 0⟩], []⟩

/-- Witness for C5 at a concrete store. -/
theorem get_project_scoping_opaque_witness :
    projectIdsDistinct dbScope ∧
    (get_project dbScope 7 1 =
        Except.error ⟨404, "Project with id 7 not found"⟩ ∧
      get_project dbScope 7 1 =
        get_project
          { dbScope with
            projects := dbScope.projects.filter (fun q => !(q.id == 7)) } 7 1) :=
  ⟨by decide,
   get_project_scoping_opaque dbScope 7 2 1 ⟨7, "Foo", none, "planned", none, 2, 0, 0⟩
     (by decide) (by decide) rfl rfl (by decide)⟩

/-- C6: for a store containing workspace 1 with pairwise-distinct
workspace names, an update of workspace 1 whose patch carries a name is
rejected with 403, an update whose patch carries only a description
succeeds, and a delete of workspace 1 never succeeds in any store. -/
theorem default_workspace_protection (db : DB) (w : WorkspaceRec) (now : Nat)
    (hfind : db.workspaces.find? (fun x => x.id == 1) = some w)
    (hnames : db.workspaces.Pairwise (fun a b => a.name ≠ b.name)) :
    (∀ nm dpatch, update_workspace db 1 ⟨some nm, dpatch⟩ now =
        Except.error ⟨403, "Cannot rename the default workspace"⟩) ∧
    (∀ d, (update_workspace db 1 ⟨none, some d⟩ now).isOk = true) ∧
    (∀ db2 : DB, (delete_workspace db2 1).isOk = false) := by
  have hwmem : w ∈ db.workspaces := List.mem_of_find?_eq_some hfind
  have hwid : w.id = 1 := by
    have := List.find?_some hfind
    simpa using this
  refine ⟨?_, ?_, ?_⟩
  · intro nm dpatch
    unfold update_workspace
    rw [hfind]
    simp
  · intro d
    unfold update_workspace
    rw [hfind]
    simp only [beq_self_eq_true, Option.isSome_none, Bool.and_false,
      Bool.false_eq_true, if_false, ite_false]
    have hback : db.workspaces.any
        (fun x => x.id != 1 && x.name == w.name) = false := by
      rw [Bool.eq_false_iff]
      intro hany
      rw [List.any_eq_true] at hany
      obtain ⟨x, hxmem, hx⟩ := hany
      simp only [Bool.and_eq_true, bne_iff_ne, beq_iff_eq] at hx
      have hxw : x ≠ w := fun he => hx.1 (he ▸ hwid)
      have hsym : Symmetric (fun a b : WorkspaceRec => a.name ≠ b.name) := by
        intro a b hab
        exact fun h => hab h.symm
      exact (List.Pairwise.forall hsym hnames) hxmem hwmem hxw hx.2
    simp [hback]
    rfl
  · intro db2
    unfold delete_workspace
    cases hf : db2.workspaces.find? (fun x => x.id == 1) with
    | none => rfl
    | some _ => rfl

/-- Concrete store for the C6 witness: the default workspace with
distinct names and a patch on each side. -/
def dbDefaultWs : DB :=
  ⟨[⟨1, "Default Workspace", none, 0, 0⟩, ⟨2, "Other", none, 0, 0⟩], [], []⟩

/-- Witness for C6 at a concrete store. -/
theorem default_workspace_protection_witness :
    dbDefaultWs.workspaces.find? (fun x => x.id == 1) =
        some ⟨1, "Default Workspace", none, 0, 0⟩ ∧
    ((∀ nm dpatch, update_workspace dbDefaultWs 1 ⟨some nm, dpatch⟩ 9 =
        Except.error ⟨403, "Cannot rename the default workspace"⟩) ∧
      (∀ d, (update_workspace dbDefaultWs 1 ⟨none, some d⟩ 9).isOk = true) ∧
      (∀ db2 : DB, (delete_workspace db2 1).isOk = false)) :=
  ⟨by decide,
   default_workspace_protection dbDefaultWs ⟨1, "Default Workspace", none, 0, 0⟩ 9
     (by decide) (by decide)⟩

/-- Concrete store refuting C7 as stated: the default workspace owns
one project, yet its deletion is rejected with the 403 forbidden
response rather than the business-rule error reporting the count. -/
def dbDefaultOwning : DB :=
  ⟨[⟨1, "Default Workspace", none, 0, 0⟩],
   [⟨1, "P", none, "planned", none, 1, 0, 0⟩], []⟩

/-- Counterexample to C7 as stated: a workspace owning N = 1 projects
(the default workspace) whose deletion is not rejected with the
business-rule error reporting N. -/
theorem delete_default_owning_not_business_rule :
    (dbDefaultOwning.projects.filter (fun p => p.workspace_id == 1)).length = 1 ∧
    delete_workspace dbDefaultOwning 1 =
      Except.error ⟨403, "Cannot delete the default workspace"⟩ ∧
    delete_workspace dbDefaultOwning 1 ≠
      Except.error
        ⟨400, "Cannot delete workspace with 1 project(s). Move or delete projects first."⟩ := by
  decide

/-- C7 (amended to non-default workspaces): deleting a non-default
workspace that owns N ≥ 1 projects is rejected with the business-rule
error reporting N (the store is left untouched), and deleting a
non-default workspace that owns no projects succeeds and removes the
workspace row. -/
theorem delete_workspace_project_guard (db : DB) (wsId : Nat)
    (w : WorkspaceRec) (n : Nat)
    (hfind : db.workspaces.find? (fun x => x.id == wsId) = some w)
    (hne : wsId ≠ 1)
    (hn : (db.projects.filter (fun p => p.workspace_id == wsId)).length = n) :
    (0 < n → delete_workspace db wsId =
      Except.error
        ⟨400, s!"Cannot delete workspace with {n} project(s). Move or delete projects first."⟩) ∧
    (n = 0 → delete_workspace db wsId = Except.ok { db with
        workspaces := db.workspaces.filter (fun x => !(x.id == wsId)),
        projects := db.projects.filter (fun p => !(p.workspace_id == wsId)),
        templates := db.templates.filter (fun t => !(t.workspace_id == wsId)) }) := by
  constructor
  · intro hpos
    unfold delete_workspace
    rw [hfind]
    simp only [beq_iff_eq, if_neg hne, hn]
    rw [if_pos hpos]
  · intro hzero
    unfold delete_workspace
    rw [hfind]
    simp only [beq_iff_eq, if_neg hne, hn]
    rw [if_neg (by simp [hzero])]

/-- Concrete stores for the C7 witness: workspace 2 first owning one
project, then owning none. -/
def dbWs2Owning : DB :=
  ⟨[⟨1, "Default Workspace", none, 0, 0⟩, ⟨2, "W2", none, 0, 0⟩],
   [⟨1, "P", none, "planned", none, 2, 0, 0⟩], []⟩

/-- Concrete empty companion store for the C7 witness. -/
def dbWs2Empty : DB :=
  ⟨[⟨1, "Default Workspace", none, 0, 0⟩, ⟨2, "W2", none, 0, 0⟩], [], []⟩

/-- Witness for C7 (amended) at concrete stores: both the blocked and
the successful branch. -/
theorem delete_workspace_project_guard_witness :
    (delete_workspace dbWs2Owning 2 =
      Except.error
        ⟨400, "Cannot delete workspace with 1 project(s). Move or delete projects first."⟩) ∧
    (delete_workspace dbWs2Empty 2 = Except.ok { dbWs2Empty with
        workspaces := dbWs2Empty.workspaces.filter (fun x => !(x.id == 2)),
        projects := dbWs2Empty.projects.filter (fun p => !(p.workspace_id == 2)),
        templates := dbWs2Empty.templates.filter (fun t => !(t.workspace_id == 2)) }) :=
  ⟨(delete_workspace_project_guard dbWs2Owning 2 ⟨2, "W2", none, 0, 0⟩ 1
      (by decide) (by decide) (by decide)).1 (by decide),
   (delete_workspace_project_guard dbWs2Empty 2 ⟨2, "W2", none, 0, 0⟩ 0
      (by decide) (by decide) (by decide)).2 rfl⟩

/-- A successful `validateName` returns the trimmed input. -/
theorem validateName_ok {v : String} {maxLen : Nat} {label t : String}
    (h : validateName v maxLen label = Except.ok t) : t = strTrim v := by
  unfold validateName at h
  split_ifs at h
  all_goals simp_all

/-- A successful project-create validation stores the trimmed name. -/
theorem validateProjectCreate_name {r : ProjectCreateRaw} {d : ProjectData}
    (h : validateProjectCreate r = Except.ok d) : d.name = strTrim r.name := by
  unfold validateProjectCreate at h
  cases hn : validateName r.name 255 "Project name" with
  | error e => rw [hn] at h; simp [Bind.bind, Except.bind] at h
  | ok t =>
    rw [hn] at h
    cases hd : validateOptText r.description 2000 "Project description" with
    | error e => rw [hd] at h; simp [Bind.bind, Except.bind] at h
    | ok dsc =>
      rw [hd] at h
      cases hv : validateVideoTitle r.video_title with
      | error e => rw [hv] at h; simp [Bind.bind, Except.bind] at h
      | ok vt =>
        rw [hv] at h
        simp only [Bind.bind, Except.bind, pure, Except.pure, Except.ok.injEq] at h
        rw [← h]
        exact validateName_ok hn

/-- A successful validation lets the create endpoint reduce to its
post-validation body: validation never touches the store. -/
theorem create_project_of_valid {r : ProjectCreateRaw} {d : ProjectData}
    (hv : validateProjectCreate r = Except.ok d) (db : DB) (ws now nid : Nat) :
    create_project db r ws now nid = create_project_checked db d ws now nid := by
  unfold create_project
  rw [hv]

/-- Shape of a successful project create: the new row is appended, all
other tables are untouched, and the scoped workspace existed. -/
theorem create_project_checked_ok {db : DB} {d : ProjectData}
    {ws now nid : Nat} {db1 : DB} {p : ProjectRec}
    (h : create_project_checked db d ws now nid = Except.ok (db1, p)) :
    db1 = { db with projects := db.projects ++ [p] } ∧
    p = ⟨nid, d.name, d.description, d.status, d.video_title, ws, now, now⟩ ∧
    workspaceExists db ws = true := by
  unfold create_project_checked at h
  split_ifs at h with h1 h2 h3
  simp only [Except.ok.injEq, Prod.mk.injEq] at h
  obtain ⟨ha, hb⟩ := h
  subst hb
  subst ha
  exact ⟨rfl, rfl, by simpa using h1⟩

/-- C2: after successfully creating a project, creating another project
in the same workspace whose submitted name agrees with the first one up
to letter case and leading/trailing whitespace (names are trimmed by
validation and compared case-insensitively) is rejected as a 409
duplicate conflict. -/
theorem create_project_case_whitespace_duplicate
    (db db1 : DB) (r r2 : ProjectCreateRaw) (d d2 : ProjectData)
    (p : ProjectRec) (ws now now2 nid nid2 : Nat)
    (hv : validateProjectCreate r = Except.ok d)
    (hv2 : validateProjectCreate r2 = Except.ok d2)
    (hsim : strLower (strTrim r2.name) = strLower (strTrim r.name))
    (hok : create_project db r ws now nid = Except.ok (db1, p)) :
    create_project db1 r2 ws now2 nid2 =
      Except.error ⟨409, s!"A project named \x27{d2.name}\x27 already exists"⟩ := by
  rw [create_project_of_valid hv] at hok
  obtain ⟨hdb1, hp, hws⟩ := create_project_checked_ok hok
  have hname : p.name = d.name := by rw [hp]
  have hws1 : workspaceExists db1 ws = true := by
    rw [hdb1]
    unfold workspaceExists at hws ⊢
    exact hws
  have hlow : strLower p.name = strLower d2.name := by
    rw [hname, validateProjectCreate_name hv, validateProjectCreate_name hv2]
    exact hsim.symm
  have hmem : p ∈ db1.projects := by
    rw [hdb1]
    simp
  have hdup : db1.projects.any
      (fun q => ilike q.name d2.name && q.workspace_id == ws) = true := by
    rw [List.any_eq_true]
    refine ⟨p, hmem, ?_⟩
    rw [Bool.and_eq_true]
    constructor
    · exact ilike_of_lower_eq hlow
    · rw [beq_iff_eq, hp]
  rw [create_project_of_valid hv2]
  unfold create_project_checked
  rw [if_neg (by rw [hws1]; simp), if_pos hdup]

/-- Concrete one-workspace store for the C2 witness. -/
def dbOneWs : DB := ⟨[⟨1, "Default Workspace", none, 0, 0⟩], [], []⟩

/-- Witness for C2 at concrete inputs: create `Ab`, then creating
` aB ` in the same workspace is rejected as a duplicate. -/
theorem create_project_case_whitespace_duplicate_witness :
    validateProjectCreate ⟨"Ab", none, none, none⟩ =
        Except.ok ⟨"Ab", none, "planned", none⟩ ∧
    validateProjectCreate ⟨" aB ", none, none, none⟩ =
        Except.ok ⟨"aB", none, "planned", none⟩ ∧
    strLower (strTrim " aB ") = strLower (strTrim "Ab") ∧
    create_project dbOneWs ⟨"Ab", none, none, none⟩ 1 5 1 =
        Except.ok
          (⟨[⟨1, "Default Workspace", none, 0, 0⟩],
            [⟨1, "Ab", none, "planned", none, 1, 5, 5⟩], []⟩,
           ⟨1, "Ab", none, "planned", none, 1, 5, 5⟩) ∧
    create_project
        ⟨[⟨1, "Default Workspace", none, 0, 0⟩],
         [⟨1, "Ab", none, "planned", none, 1, 5, 5⟩], []⟩
        ⟨" aB ", none, none, none⟩ 1 6 2 =
      Except.error ⟨409, "A project named \x27aB\x27 already exists"⟩ :=
  ⟨by decide, by decide, by decide, by decide,
   create_project_case_whitespace_duplicate dbOneWs
     ⟨[⟨1, "Default Workspace", none, 0, 0⟩],
      [⟨1, "Ab", none, "planned", none, 1, 5, 5⟩], []⟩
     ⟨"Ab", none, none, none⟩ ⟨" aB ", none, none, none⟩
     ⟨"Ab", none, "planned", none⟩ ⟨"aB", none, "planned", none⟩
     ⟨1, "Ab", none, "planned", none, 1, 5, 5⟩ 1 5 6 1 2
     (by decide) (by decide) (by decide) (by decide)⟩

/-- C9: frame property of project update.  On success only the fields
present in the patch change (absent fields keep their prior value), the
store recomputes `updated_at`, identity/creation data are untouched and
no other row or table changes; and the duplicate pre-check is performed
against the new effective name excluding the record's own id: any other
project in the workspace matching the new name makes the update fail
with a 409 conflict. -/
theorem update_project_frame (db : DB) (pid : Nat) (patch : ProjectUpdateData)
    (ws now : Nat) (cur : ProjectRec)
    (hfind : db.projects.find? (fun p => p.id == pid && p.workspace_id == ws) =
      some cur) :
    (∀ db1 rec, update_project db pid patch ws now = Except.ok (db1, rec) →
      rec.id = cur.id ∧
      rec.name = patch.name.getD cur.name ∧
      rec.description = patch.description.getD cur.description ∧
      rec.status = patch.status.getD cur.status ∧
      rec.video_title = patch.video_title.getD cur.video_title ∧
      rec.workspace_id = cur.workspace_id ∧
      rec.created_at = cur.created_at ∧
      rec.updated_at = now ∧
      db1.workspaces = db.workspaces ∧
      db1.templates = db.templates ∧
      db1.projects = db.projects.map (fun q => if q.id == pid then rec else q)) ∧
    (∀ nm other, patch.name = some nm → other ∈ db.projects → other.id ≠ pid →
      other.workspace_id = ws → ilike other.name nm = true →
      update_project db pid patch ws now =
        Except.error ⟨409, "A project named \x27" ++ nm ++ "\x27 already exists"⟩) := by
  have hred : update_project db pid patch ws now =
      update_project_found db pid patch ws now cur := by
    unfold update_project
    rw [hfind]
  constructor
  · intro db1 rec h
    rw [hred] at h
    unfold update_project_found at h
    split_ifs at h with hc hd
    simp only [Except.ok.injEq, Prod.mk.injEq] at h
    obtain ⟨ha, hb⟩ := h
    subst hb
    subst ha
    unfold applyProjectPatch
    exact ⟨rfl, rfl, rfl, rfl, rfl, rfl, rfl, rfl, rfl, rfl, rfl⟩
  · intro nm other hnm hmem hne hws hilike
    rw [hred]
    unfold update_project_found
    have hpre : (match patch.name with
        | some nm2 => db.projects.any (fun q =>
            ilike q.name nm2 && q.id != pid && q.workspace_id == ws)
        | none => false) = true := by
      rw [hnm, List.any_eq_true]
      refine ⟨other, hmem, ?_⟩
      simp [hilike, hne, hws]
    rw [if_pos hpre, hnm]
    rfl

/-- Concrete store for the C9 witness: workspace 1 with projects `Old`
(id 1) and `taken` (id 2). -/
def dbFrame : DB :=
  ⟨[⟨1, "Default Workspace", none, 0, 0⟩],
   [⟨1, "Old", none, "planned", none, 1, 0, 0⟩,
    ⟨2, "taken", none, "planned", none, 1, 0, 0⟩], []⟩

/-- Witness for C9: a successful patch of description and status keeps
every other field, and a patch renaming to another row's name is
rejected as a 409 conflict. -/
theorem update_project_frame_witness :
    update_project dbFrame 1 ⟨none, some (some "D2"), some "done", none⟩ 1 9 =
      Except.ok
        (⟨[⟨1, "Default Workspace", none, 0, 0⟩],
          [⟨1, "Old", some "D2", "done", none, 1, 0, 9⟩,
           ⟨2, "taken", none, "planned", none, 1, 0, 0⟩], []⟩,
         ⟨1, "Old", some "D2", "done", none, 1, 0, 9⟩) ∧
    ((⟨1, "Old", some "D2", "done", none, 1, 0, 9⟩ : ProjectRec).name =
        (⟨1, "Old", none, "planned", none, 1, 0, 0⟩ : ProjectRec).name ∧
      (⟨1, "Old", some "D2", "done", none, 1, 0, 9⟩ : ProjectRec).updated_at = 9 ∧
      (⟨1, "Old", some "D2", "done", none, 1, 0, 9⟩ : ProjectRec).created_at =
        (⟨1, "Old", none, "planned", none, 1, 0, 0⟩ : ProjectRec).created_at) ∧
    update_project dbFrame 1 ⟨some "taken", none, none, none⟩ 1 9 =
      Except.error ⟨409, "A project named \x27taken\x27 already exists"⟩ :=
  ⟨by decide,
   by
    have h := (update_project_frame dbFrame 1
      ⟨none, some (some "D2"), some "done", none⟩ 1 9
      ⟨1, "Old", none, "planned", none, 1, 0, 0⟩ (by decide)).1
      ⟨[⟨1, "Default Workspace", none, 0, 0⟩],
        [⟨1, "Old", some "D2", "done", none, 1, 0, 9⟩,
         ⟨2, "taken", none, "planned", none, 1, 0, 0⟩], []⟩
      ⟨1, "Old", some "D2", "done", none, 1, 0, 9⟩ (by decide)
    exact ⟨h.2.1, h.2.2.2.2.2.2.2.1, h.2.2.2.2.2.2.1⟩,
   (update_project_frame dbFrame 1 ⟨some "taken", none, none, none⟩ 1 9
      ⟨1, "Old", none, "planned", none, 1, 0, 0⟩ (by decide)).2
     "taken" ⟨2, "taken", none, "planned", none, 1, 0, 0⟩ rfl (by decide)
     (by decide) rfl (by decide)⟩

/-- C3: the content validator accepts exactly when at least one
`{{ ... }}` token exists and every token's trimmed interior is
non-empty; and, concretely on the test-suite inputs, a well-formed
token is accepted, one empty token among valid ones rejects the whole
content, and an unterminated `{{` is not counted as a placeholder (so
content whose only open brace never closes has no tokens and is
rejected). -/
theorem template_content_validation (c : String) :
    (validate_placeholders c = Except.ok () ↔
      (placeholders c ≠ [] ∧ ∀ p ∈ placeholders c, strTrim p ≠ "")) ∧
    validate_placeholders ("Best \x7b\x7btools\x7d\x7d for Testers") =
      Except.ok () ∧
    (validate_placeholders
      ("\x7b\x7bvalid\x7d\x7d and \x7b\x7b\x7d\x7d and \x7b\x7banother\x7d\x7d")).isOk
        = false ∧
    (validate_placeholders ("Test \x7bplaceholder\x7d or \x7b\x7bincomplete")).isOk
        = false ∧
    placeholders ("Test \x7bplaceholder\x7d or \x7b\x7bincomplete") = [] := by
  refine ⟨?_, by decide, by decide, by decide, by decide⟩
  unfold validate_placeholders
  by_cases h1 : (placeholders c).any (fun p => decide (strTrim p = "")) = true
  · rw [if_pos h1]
    simp only [List.any_eq_true, decide_eq_true_eq] at h1
    obtain ⟨p, hp, hpe⟩ := h1
    constructor
    · intro h
      exact absurd h (by simp)
    · intro h
      exact absurd hpe (h.2 p hp)
  · rw [if_neg h1]
    by_cases h2 : (placeholders c).isEmpty = true
    · rw [if_pos h2]
      rw [List.isEmpty_iff] at h2
      constructor
      · intro h
        exact absurd h (by simp)
      · intro h
        exact absurd h2 h.1
    · rw [if_neg h2]
      constructor
      · intro _
        refine ⟨?_, ?_⟩
        · intro hnil
          exact h2 (by rw [List.isEmpty_iff]; exact hnil)
        · intro p hp hpe
          exact h1 (List.any_eq_true.mpr ⟨p, hp, by simp [hpe]⟩)
      · intro _
        rfl

/-- Replacing the row with the given id preserves the collision-free
invariant, provided the replacement collides with no other row. -/
theorem pairwise_templRel_replace (ts : List TemplateRec) (tid : Nat)
    (newT : TemplateRec) (hinv : ts.Pairwise templRel)
    (hids : ts.Pairwise (fun a b => a.id ≠ b.id))
    (hnew : ∀ u ∈ ts, u.id ≠ tid → templRel u newT) :
    (ts.map (fun u => if u.id == tid then newT else u)).Pairwise templRel := by
  induction ts with
  | nil => simp
  | cons a ts ih =>
    rw [List.pairwise_cons] at hinv hids
    obtain ⟨hRa, hinvt⟩ := hinv
    obtain ⟨hIa, hidst⟩ := hids
    rw [List.map_cons, List.pairwise_cons]
    refine ⟨?_, ih hinvt hidst
      (fun u hu hne => hnew u (List.mem_cons_of_mem a hu) hne)⟩
    intro b2 hb2
    rw [List.mem_map] at hb2
    obtain ⟨b, hb, rfl⟩ := hb2
    by_cases hat : (a.id == tid) = true
    · rw [if_pos hat]
      have hbid : b.id ≠ tid := by
        intro hbt
        exact hIa b hb ((beq_iff_eq.mp hat).trans hbt.symm)
      rw [if_neg (by simp [hbid])]
      exact templRel_symm (hnew b (List.mem_cons_of_mem a hb) hbid)
    · rw [if_neg hat]
      by_cases hbt : (b.id == tid) = true
      · rw [if_pos hbt]
        exact hnew a (List.mem_cons_self a ts) (by simpa using hat)
      · rw [if_neg hbt]
        exact hRa b hb

/-- C4: the template uniqueness invariant — no two templates of one
workspace and one type with case-insensitively equal content — is
preserved by a successful create and by a successful update (whose
duplicate check excludes the record's own id, so an update keeping the
row's own content succeeds), and content colliding with no row of the
same workspace and type — in particular the same content under another
type or in another workspace — is always accepted by create. -/
theorem template_uniqueness_invariant (db : DB) (d : TemplateData)
    (patch : TemplateUpdateData) (ws now nid tid : Nat) :
    (templateInvariant db → ∀ db1 t,
      create_template db d ws now nid = Except.ok (db1, t) →
      templateInvariant db1) ∧
    (templateInvariant db → templateIdsDistinct db → ∀ db1 t,
      update_template db tid patch ws now = Except.ok (db1, t) →
      templateInvariant db1) ∧
    (workspaceExists db ws = true →
      (∀ u ∈ db.templates, ¬(u.workspace_id = ws ∧ u.type = d.type ∧
        strLower u.content = strLower d.content)) →
      (create_template db d ws now nid).isOk = true) ∧
    (templateInvariant db → templateIdsDistinct db → ∀ cur,
      db.templates.find? (fun t => t.id == tid && t.workspace_id == ws) =
        some cur →
      (update_template db tid ⟨none, none, some cur.content⟩ ws now).isOk =
        true) := by
  have hsym : Symmetric templRel := fun a b h => templRel_symm h
  refine ⟨?_, ?_, ?_, ?_⟩
  · intro hinv db1 t h
    unfold create_template at h
    by_cases h1 : (!(workspaceExists db ws)) = true
    · rw [if_pos h1] at h
      simp at h
    · rw [if_neg h1] at h
      cases hdup : check_duplicate_content db.templates d.type d.content ws none with
      | some ex =>
        rw [hdup] at h
        simp at h
      | none =>
        rw [hdup] at h
        by_cases h2 : templateIndexViolation db.templates none ws d.type d.content
            = true
        · rw [if_pos h2] at h
          simp at h
        · rw [if_neg h2] at h
          simp only [Except.ok.injEq, Prod.mk.injEq] at h
          obtain ⟨ha, hb⟩ := h
          subst hb
          subst ha
          unfold templateInvariant at hinv ⊢
          rw [List.pairwise_append]
          refine ⟨hinv, by simp, ?_⟩
          intro u hu b hb
          rw [List.mem_singleton] at hb
          subst hb
          unfold check_duplicate_content at hdup
          have hnp := List.find?_eq_none.mp hdup u hu
          unfold templRel
          intro hcol
          apply hnp
          simp [hcol.1, hcol.2.1, hcol.2.2]
  · intro hinv hids db1 t h
    cases hfind : db.templates.find?
        (fun t => t.id == tid && t.workspace_id == ws) with
    | none =>
      have hred : update_template db tid patch ws now =
          Except.error ⟨404, "Template not found"⟩ := by
        unfold update_template
        rw [hfind]
      rw [hred] at h
      simp at h
    | some cur =>
      have hred : update_template db tid patch ws now =
          update_template_found db tid patch ws now cur := by
        unfold update_template
        rw [hfind]
      rw [hred] at h
      unfold update_template_found at h
      cases hpre : (if patch.type.isSome || patch.content.isSome then
          check_duplicate_content db.templates (patch.type.getD cur.type)
            (patch.content.getD cur.content) ws (some tid)
        else none) with
      | some ex =>
        rw [hpre] at h
        simp at h
      | none =>
        rw [hpre] at h
        by_cases h2 : templateIndexViolation db.templates (some tid) ws
            (applyTemplatePatch patch cur now).type
            (applyTemplatePatch patch cur now).content = true
        · rw [if_pos h2] at h
          simp at h
        · rw [if_neg h2] at h
          simp only [Except.ok.injEq, Prod.mk.injEq] at h
          obtain ⟨ha, hb⟩ := h
          subst hb
          subst ha
          have hcws : cur.workspace_id = ws := by
            have := List.find?_some hfind
            simp only [Bool.and_eq_true, beq_iff_eq] at this
            exact this.2
          unfold templateInvariant at hinv ⊢
          apply pairwise_templRel_replace db.templates tid _ hinv hids
          intro u hu hne
          unfold templRel
          intro hcol
          rw [Bool.not_eq_true] at h2
          rw [← Bool.not_eq_true, templateIndexViolation, List.any_eq_true] at h2
          apply h2
          refine ⟨u, hu, ?_⟩
          have hups : u.workspace_id = ws := by
            rw [hcol.1]
            unfold applyTemplatePatch
            exact hcws
          simp [hne, hups, hcol.2.1, hcol.2.2]
  · intro hws hnodup
    unfold create_template
    rw [if_neg (by simp [hws])]
    have hdup : check_duplicate_content db.templates d.type d.content ws none
        = none := by
      unfold check_duplicate_content
      rw [List.find?_eq_none]
      intro u hu hpred
      simp only [Bool.and_eq_true, beq_iff_eq] at hpred
      exact hnodup u hu ⟨hpred.1.1.1, hpred.1.1.2, hpred.1.2⟩
    have htiv : templateIndexViolation db.templates none ws d.type d.content
        = false := by
      rw [Bool.eq_false_iff]
      intro hany
      rw [templateIndexViolation, List.any_eq_true] at hany
      obtain ⟨u, hu, hpred⟩ := hany
      simp only [Bool.and_eq_true, beq_iff_eq] at hpred
      exact hnodup u hu ⟨hpred.1.1.2, hpred.1.2, hpred.2⟩
    simp only [hdup, htiv, Bool.false_eq_true, if_false, ite_false]
    rfl
  · intro hinv hids cur hfind
    have hcid : cur.id = tid := by
      have := List.find?_some hfind
      simp only [Bool.and_eq_true, beq_iff_eq] at this
      exact this.1
    have hcws : cur.workspace_id = ws := by
      have := List.find?_some hfind
      simp only [Bool.and_eq_true, beq_iff_eq] at this
      exact this.2
    have hcmem : cur ∈ db.templates := List.mem_of_find?_eq_some hfind
    have hother : ∀ u ∈ db.templates, u.id ≠ tid →
        ¬(u.workspace_id = ws ∧ u.type = cur.type ∧
          strLower u.content = strLower cur.content) := by
      intro u hu hne hcol
      have hne2 : u ≠ cur := by
        intro he
        exact hne (he ▸ hcid)
      have := List.Pairwise.forall hsym hinv hu hcmem hne2
      exact this ⟨hcol.1.trans hcws.symm, hcol.2.1, hcol.2.2⟩
    have hred : update_template db tid ⟨none, none, some cur.content⟩ ws now =
        update_template_found db tid ⟨none, none, some cur.content⟩ ws now cur := by
      unfold update_template
      rw [hfind]
    rw [hred]
    unfold update_template_found
    have hchk : check_duplicate_content db.templates
        ((none : Option String).getD cur.type)
        ((some cur.content).getD cur.content) ws (some tid) = none := by
      simp only [Option.getD_none, Option.getD_some]
      unfold check_duplicate_content
      rw [List.find?_eq_none]
      intro u hu hpred
      simp only [Bool.and_eq_true, beq_iff_eq, bne_iff_ne] at hpred
      exact hother u hu hpred.2 ⟨hpred.1.1.1, hpred.1.1.2, hpred.1.2⟩
    have htiv : templateIndexViolation db.templates (some tid) ws
        (applyTemplatePatch ⟨none, none, some cur.content⟩ cur now).type
        (applyTemplatePatch ⟨none, none, some cur.content⟩ cur now).content
        = false := by
      rw [Bool.eq_false_iff]
      intro hany
      rw [templateIndexViolation, List.any_eq_true] at hany
      obtain ⟨u, hu, hpred⟩ := hany
      simp only [applyTemplatePatch, Option.getD_none, Option.getD_some,
        Bool.and_eq_true, beq_iff_eq, bne_iff_ne] at hpred
      exact hother u hu hpred.1.1.1 ⟨hpred.1.1.2, hpred.1.2, hpred.2⟩
    simp only [Option.isSome_none, Option.isSome_some, Bool.false_or, if_true,
      hchk, htiv, Bool.false_eq_true, if_false, ite_false]
    rfl

/-- Concrete store for the C4 witness: one template of type `title`. -/
def dbTempl : DB :=
  ⟨[⟨1, "Default Workspace", none, 0, 0⟩], [],
   [⟨1, "title", "T1", "x \x7b\x7ba\x7d\x7d", 1, 0, 0⟩]⟩

/-- The C4 witness store after creating the same content under another
type. -/
def dbTemplCreated : DB :=
  ⟨[⟨1, "Default Workspace", none, 0, 0⟩], [],
   [⟨1, "title", "T1", "x \x7b\x7ba\x7d\x7d", 1, 0, 0⟩,
    ⟨2, "description", "T2", "x \x7b\x7ba\x7d\x7d", 1, 5, 5⟩]⟩

/-- The C4 witness store after renaming the template. -/
def dbTemplRenamed : DB :=
  ⟨[⟨1, "Default Workspace", none, 0, 0⟩], [],
   [⟨1, "title", "T1b", "x \x7b\x7ba\x7d\x7d", 1, 0, 5⟩]⟩

/-- Witness for C4 at concrete stores: the same content is accepted
under a different type, both create and update preserve the invariant,
and an update keeping the row's own content succeeds (the duplicate
check excludes the row's id). -/
theorem template_uniqueness_invariant_witness :
    templateInvariant dbTempl ∧ templateIdsDistinct dbTempl ∧
    (create_template dbTempl ⟨"description", "T2", "x \x7b\x7ba\x7d\x7d"⟩ 1 5 2).isOk
      = true ∧
    create_template dbTempl ⟨"description", "T2", "x \x7b\x7ba\x7d\x7d"⟩ 1 5 2 =
      Except.ok (dbTemplCreated,
        ⟨2, "description", "T2", "x \x7b\x7ba\x7d\x7d", 1, 5, 5⟩) ∧
    templateInvariant dbTemplCreated ∧
    update_template dbTempl 1 ⟨none, some ("T1b"), none⟩ 1 5 =
      Except.ok (dbTemplRenamed, ⟨1, "title", "T1b", "x \x7b\x7ba\x7d\x7d", 1, 0, 5⟩) ∧
    templateInvariant dbTemplRenamed ∧
    (update_template dbTempl 1 ⟨none, none, some ("x \x7b\x7ba\x7d\x7d")⟩ 1 5).isOk
      = true := by
  refine ⟨by decide, by decide, ?_, by decide, ?_, by decide, ?_, ?_⟩
  · exact (template_uniqueness_invariant dbTempl
      ⟨"description", "T2", "x \x7b\x7ba\x7d\x7d"⟩ ⟨none, some ("T1b"), none⟩
      1 5 2 1).2.2.1 (by decide) (by decide)
  · exact (template_uniqueness_invariant dbTempl
      ⟨"description", "T2", "x \x7b\x7ba\x7d\x7d"⟩ ⟨none, some ("T1b"), none⟩
      1 5 2 1).1 (by decide) dbTemplCreated
      ⟨2, "description", "T2", "x \x7b\x7ba\x7d\x7d", 1, 5, 5⟩ (by decide)
  · exact (template_uniqueness_invariant dbTempl
      ⟨"description", "T2", "x \x7b\x7ba\x7d\x7d"⟩ ⟨none, some ("T1b"), none⟩
      1 5 2 1).2.1 (by decide) (by decide) dbTemplRenamed
      ⟨1, "title", "T1b", "x \x7b\x7ba\x7d\x7d", 1, 0, 5⟩ (by decide)
  · exact (template_uniqueness_invariant dbTempl
      ⟨"description", "T2", "x \x7b\x7ba\x7d\x7d"⟩ ⟨none, some ("T1b"), none⟩
      1 5 2 1).2.2.2 (by decide) (by decide)
      ⟨1, "title", "T1", "x \x7b\x7ba\x7d\x7d", 1, 0, 0⟩ (by decide)

/-- The template create pipeline: schema validation of the raw payload,
then `TemplateService.create_template`. -/
def create_template_endpoint (db : DB) (r : TemplateCreateRaw)
    (wsId now nextId : Nat) : Except HTTPError (DB × TemplateRec) :=
  match validateTemplateCreate r with
  | Except.error e => Except.error e
  | Except.ok d => create_template db d wsId now nextId

/-- A raw value over the length bound is rejected by `validateName`. -/
theorem validateName_too_long {v : String} {maxLen : Nat} {label : String}
    (h : maxLen < v.length) :
    validateName v maxLen label =
      Except.error ⟨422, s!"{label} must have at most {maxLen} characters"⟩ := by
  unfold validateName
  rw [if_neg (by omega), if_pos h]

/-- Every `validateName` failure is a 422 structural validation error. -/
theorem validateName_err_status {v : String} {m : Nat} {l : String}
    {e : HTTPError} (h : validateName v m l = Except.error e) :
    e.status = 422 := by
  unfold validateName at h
  split_ifs at h
  all_goals injection h with h2 <;> (subst h2; rfl)

/-- A supplied optional value over the length bound is rejected. -/
theorem validateOptText_too_long {s : String} {maxLen : Nat} {label : String}
    (h : maxLen < s.length) :
    validateOptText (some s) maxLen label =
      Except.error ⟨422, s!"{label} must have at most {maxLen} characters"⟩ := by
  simp only [validateOptText]
  rw [if_pos h]

/-- Every `validateOptText` failure is a 422 structural validation
error. -/
theorem validateOptText_err_status {v : Option String} {m : Nat} {l : String}
    {e : HTTPError} (h : validateOptText v m l = Except.error e) :
    e.status = 422 := by
  cases v with
  | none => simp [validateOptText] at h
  | some s =>
    simp only [validateOptText] at h
    split_ifs at h
    all_goals injection h with h2 <;> (subst h2; rfl)

/-- A successful `validateOptText` maps the empty string to null and
passes every other value through. -/
theorem validateOptText_ok {v : Option String} {m : Nat} {l : String}
    {o : Option String} (h : validateOptText v m l = Except.ok o) :
    o = if v = some ("") then none else v := by
  cases v with
  | none =>
    simp only [validateOptText, Except.ok.injEq] at h
    simp [← h]
  | some s =>
    simp only [validateOptText] at h
    split_ifs at h with h1 h2
    · simp only [Except.ok.injEq] at h
      simp [← h, h2]
    · simp only [Except.ok.injEq] at h
      simp [← h, h2]

/-- Raw content over the 256-character bound is rejected. -/
theorem validateContent_too_long {v : String} (h : 256 < v.length) :
    validateContent v =
      Except.error ⟨422, "Template content must have at most 256 characters"⟩ := by
  unfold validateContent
  rw [if_neg (by omega), if_pos h]

/-- A workspace-create with an invalid name fails with that error. -/
theorem wsCreate_err_of_name {r : WorkspaceCreateRaw} {e : HTTPError}
    (h : validateName r.name 100 ("Workspace name") = Except.error e) :
    validateWorkspaceCreate r = Except.error e := by
  unfold validateWorkspaceCreate
  rw [h]
  rfl

/-- A workspace-create with a valid name and invalid description fails
with the description error. -/
theorem wsCreate_err_of_desc {r : WorkspaceCreateRaw} {t : String}
    {e : HTTPError}
    (hn : validateName r.name 100 ("Workspace name") = Except.ok t)
    (hd : validateOptText r.description 500 ("Workspace description") =
      Except.error e) :
    validateWorkspaceCreate r = Except.error e := by
  unfold validateWorkspaceCreate
  rw [hn]
  simp only [Bind.bind, Except.bind]
  rw [hd]

/-- A project-create with an invalid name fails with that error. -/
theorem pCreate_err_of_name {r : ProjectCreateRaw} {e : HTTPError}
    (h : validateName r.name 255 ("Project name") = Except.error e) :
    validateProjectCreate r = Except.error e := by
  unfold validateProjectCreate
  rw [h]
  rfl

/-- A project-create with a valid name and invalid description fails
with the description error. -/
theorem pCreate_err_of_desc {r : ProjectCreateRaw} {t : String} {e : HTTPError}
    (hn : validateName r.name 255 ("Project name") = Except.ok t)
    (hd : validateOptText r.description 2000 ("Project description") =
      Except.error e) :
    validateProjectCreate r = Except.error e := by
  unfold validateProjectCreate
  rw [hn]
  simp only [Bind.bind, Except.bind]
  rw [hd]

/-- A project-create with valid name and description but invalid
video title fails with the video-title error. -/
theorem pCreate_err_of_vt {r : ProjectCreateRaw} {t : String}
    {o : Option String} {e : HTTPError}
    (hn : validateName r.name 255 ("Project name") = Except.ok t)
    (hd : validateOptText r.description 2000 ("Project description") =
      Except.ok o)
    (hv : validateVideoTitle r.video_title = Except.error e) :
    validateProjectCreate r = Except.error e := by
  unfold validateProjectCreate
  rw [hn]
  simp only [Bind.bind, Except.bind]
  rw [hd]
  simp only [Bind.bind, Except.bind]
  rw [hv]

/-- A template-create whose type is too long fails with that error. -/
theorem tCreate_err_of_type {r : TemplateCreateRaw}
    (h : 50 < r.type.length) :
    validateTemplateCreate r =
      Except.error ⟨422, "Template type must have at most 50 characters"⟩ := by
  unfold validateTemplateCreate
  rw [if_neg (by omega), if_pos h]
  rfl

/-- A template-create whose type is empty fails with that error. -/
theorem tCreate_err_of_type_min {r : TemplateCreateRaw}
    (h : r.type.length < 1) :
    validateTemplateCreate r =
      Except.error ⟨422, "Template type must have at least 1 character"⟩ := by
  unfold validateTemplateCreate
  rw [if_pos h]
  rfl

/-- A template-create with a valid type and invalid name fails with the
name error. -/
theorem tCreate_err_of_name {r : TemplateCreateRaw} {e : HTTPError}
    (h1 : ¬(r.type.length < 1)) (h2 : ¬(50 < r.type.length))
    (hn : validateName r.name 100 ("Template name") = Except.error e) :
    validateTemplateCreate r = Except.error e := by
  unfold validateTemplateCreate
  rw [if_neg h1, if_neg h2]
  simp only [Bind.bind, Except.bind, pure, Except.pure]
  rw [hn]

/-- A template-create with valid type and name but invalid content
fails with the content error. -/
theorem tCreate_err_of_content {r : TemplateCreateRaw} {t : String}
    {e : HTTPError}
    (h1 : ¬(r.type.length < 1)) (h2 : ¬(50 < r.type.length))
    (hn : validateName r.name 100 ("Template name") = Except.ok t)
    (hc : validateContent r.content = Except.error e) :
    validateTemplateCreate r = Except.error e := by
  unfold validateTemplateCreate
  rw [if_neg h1, if_neg h2]
  simp only [Bind.bind, Except.bind, pure, Except.pure]
  rw [hn]
  simp only [Bind.bind, Except.bind]
  rw [hc]

/-- C8: input exceeding a declared maximum field length — workspace
name 100 and description 500; project name 255, description 2000 and
video_title 500; template type 50, name 100 and content 256 — is
rejected by schema validation with a 422 structural error; any
validation failure is returned unchanged by the create pipelines for
every store, so it is reported before any database access; and a
validated project create carries the submitted video_title through
(empty string becoming null). -/
theorem declared_field_length_validation (rW : WorkspaceCreateRaw)
    (rP : ProjectCreateRaw) (rT : TemplateCreateRaw) (ws : Nat) :
    (100 < rW.name.length →
      ∃ e, validateWorkspaceCreate rW = Except.error e ∧ e.status = 422) ∧
    (∀ s, rW.description = some s → 500 < s.length →
      ∃ e, validateWorkspaceCreate rW = Except.error e ∧ e.status = 422) ∧
    (255 < rP.name.length →
      ∃ e, validateProjectCreate rP = Except.error e ∧ e.status = 422) ∧
    (∀ s, rP.description = some s → 2000 < s.length →
      ∃ e, validateProjectCreate rP = Except.error e ∧ e.status = 422) ∧
    (∀ s, rP.video_title = some s → 500 < s.length →
      ∃ e, validateProjectCreate rP = Except.error e ∧ e.status = 422) ∧
    (50 < rT.type.length →
      ∃ e, validateTemplateCreate rT = Except.error e ∧ e.status = 422) ∧
    (100 < rT.name.length →
      ∃ e, validateTemplateCreate rT = Except.error e ∧ e.status = 422) ∧
    (256 < rT.content.length →
      ∃ e, validateTemplateCreate rT = Except.error e ∧ e.status = 422) ∧
    (∀ e, validateWorkspaceCreate rW = Except.error e →
      ∀ db now nid, create_workspace db rW now nid = Except.error e) ∧
    (∀ e, validateProjectCreate rP = Except.error e →
      ∀ db now nid, create_project db rP ws now nid = Except.error e) ∧
    (∀ e, validateTemplateCreate rT = Except.error e →
      ∀ db now nid, create_template_endpoint db rT ws now nid = Except.error e) ∧
    (∀ d, validateProjectCreate rP = Except.ok d →
      d.video_title = if rP.video_title = some ("") then none
        else rP.video_title) := by
  refine ⟨?_, ?_, ?_, ?_, ?_, ?_, ?_, ?_, ?_, ?_, ?_, ?_⟩
  · intro h
    exact ⟨_, wsCreate_err_of_name (validateName_too_long h), rfl⟩
  · intro s hs hlen
    cases hn : validateName rW.name 100 ("Workspace name") with
    | error e1 => exact ⟨e1, wsCreate_err_of_name hn, validateName_err_status hn⟩
    | ok t =>
      obtain ⟨e2, he2, hs2⟩ : ∃ e2,
          validateOptText rW.description 500 ("Workspace description") =
            Except.error e2 ∧ e2.status = 422 := by
        rw [hs]
        exact ⟨_, validateOptText_too_long hlen, rfl⟩
      exact ⟨e2, wsCreate_err_of_desc hn he2, hs2⟩
  · intro h
    exact ⟨_, pCreate_err_of_name (validateName_too_long h), rfl⟩
  · intro s hs hlen
    cases hn : validateName rP.name 255 ("Project name") with
    | error e1 => exact ⟨e1, pCreate_err_of_name hn, validateName_err_status hn⟩
    | ok t =>
      obtain ⟨e2, he2, hs2⟩ : ∃ e2,
          validateOptText rP.description 2000 ("Project description") =
            Except.error e2 ∧ e2.status = 422 := by
        rw [hs]
        exact ⟨_, validateOptText_too_long hlen, rfl⟩
      exact ⟨e2, pCreate_err_of_desc hn he2, hs2⟩
  · intro s hs hlen
    cases hn : validateName rP.name 255 ("Project name") with
    | error e1 => exact ⟨e1, pCreate_err_of_name hn, validateName_err_status hn⟩
    | ok t =>
      cases hd : validateOptText rP.description 2000 ("Project description") with
      | error e2 =>
        exact ⟨e2, pCreate_err_of_desc hn hd, validateOptText_err_status hd⟩
      | ok o =>
        obtain ⟨e3, he3, hs3⟩ : ∃ e3,
            validateVideoTitle rP.video_title = Except.error e3 ∧
              e3.status = 422 := by
          unfold validateVideoTitle
          rw [hs]
          exact ⟨_, validateOptText_too_long hlen, rfl⟩
        exact ⟨e3, pCreate_err_of_vt hn hd he3, hs3⟩
  · intro h
    exact ⟨_, tCreate_err_of_type h, rfl⟩
  · intro h
    by_cases h1 : rT.type.length < 1
    · exact ⟨_, tCreate_err_of_type_min h1, rfl⟩
    · by_cases h2 : 50 < rT.type.length
      · exact ⟨_, tCreate_err_of_type h2, rfl⟩
      · exact ⟨_, tCreate_err_of_name h1 h2 (validateName_too_long h), rfl⟩
  · intro h
    by_cases h1 : rT.type.length < 1
    · exact ⟨_, tCreate_err_of_type_min h1, rfl⟩
    · by_cases h2 : 50 < rT.type.length
      · exact ⟨_, tCreate_err_of_type h2, rfl⟩
      · cases hn : validateName rT.name 100 ("Template name") with
        | error e1 =>
          exact ⟨e1, tCreate_err_of_name h1 h2 hn, validateName_err_status hn⟩
        | ok t =>
          exact ⟨_, tCreate_err_of_content h1 h2 hn (validateContent_too_long h),
            rfl⟩
  · intro e he db now nid
    unfold create_workspace
    rw [he]
  · intro e he db now nid
    unfold create_project
    rw [he]
  · intro e he db now nid
    unfold create_template_endpoint
    rw [he]
  · intro d hd
    unfold validateProjectCreate at hd
    cases hn : validateName rP.name 255 ("Project name") with
    | error e1 =>
      rw [hn] at hd
      simp [Bind.bind, Except.bind] at hd
    | ok t =>
      rw [hn] at hd
      cases hde : validateOptText rP.description 2000 ("Project description") with
      | error e2 =>
        rw [hde] at hd
        simp [Bind.bind, Except.bind] at hd
      | ok o =>
        rw [hde] at hd
        cases hv : validateVideoTitle rP.video_title with
        | error e3 =>
          rw [hv] at hd
          simp [Bind.bind, Except.bind] at hd
        | ok vt =>
          rw [hv] at hd
          simp only [Bind.bind, Except.bind, pure, Except.pure,
            Except.ok.injEq] at hd
          rw [← hd]
          exact validateOptText_ok hv

/-- Oversize workspace payload for the C8 witness. -/
def rWbig : WorkspaceCreateRaw :=
  ⟨String.mk (List.replicate 101 (Char.ofNat 120)),
   some (String.mk (List.replicate 501 (Char.ofNat 121)))⟩

/-- Oversize project payload for the C8 witness. -/
def rPbig : ProjectCreateRaw :=
  ⟨String.mk (List.replicate 256 (Char.ofNat 120)),
   some (String.mk (List.replicate 2001 (Char.ofNat 121))), none,
   some (String.mk (List.replicate 501 (Char.ofNat 122)))⟩

/-- Oversize template payload for the C8 witness. -/
def rTbig : TemplateCreateRaw :=
  ⟨String.mk (List.replicate 51 (Char.ofNat 120)),
   String.mk (List.replicate 101 (Char.ofNat 121)),
   String.mk (List.replicate 257 (Char.ofNat 122))⟩

/-- Valid project payload carrying a video title, for the C8 witness. -/
def rPgood : ProjectCreateRaw := ⟨"a", none, none, some ("t")⟩

set_option maxRecDepth 8192

/-- Witness for C8 at concrete payloads: every oversize field yields a
422 validation error, the create pipelines return it for every store,
and a valid create passes the video title through. -/
theorem declared_field_length_validation_witness :
    (∃ e, validateWorkspaceCreate rWbig = Except.error e ∧ e.status = 422) ∧
    (∃ e, validateProjectCreate rPbig = Except.error e ∧ e.status = 422) ∧
    (∃ e, validateTemplateCreate rTbig = Except.error e ∧ e.status = 422) ∧
    (∀ db now nid, create_workspace db rWbig now nid =
      Except.error ⟨422, "Workspace name must have at most 100 characters"⟩) ∧
    (∀ db now nid, create_project db rPbig 1 now nid =
      Except.error ⟨422, "Project name must have at most 255 characters"⟩) ∧
    (∀ db now nid, create_template_endpoint db rTbig 1 now nid =
      Except.error ⟨422, "Template type must have at most 50 characters"⟩) ∧
    validateProjectCreate rPgood = Except.ok ⟨"a", none, "planned", some ("t")⟩ ∧
    (⟨"a", none, "planned", some ("t")⟩ : ProjectData).video_title =
      (if rPgood.video_title = some ("") then none else rPgood.video_title) := by
  refine ⟨?_, ?_, ?_, ?_, ?_, ?_, by decide, ?_⟩
  · exact (declared_field_length_validation rWbig rPbig rTbig 1).1 (by decide)
  · exact (declared_field_length_validation rWbig rPbig rTbig 1).2.2.1 (by decide)
  · exact (declared_field_length_validation rWbig rPbig rTbig 1).2.2.2.2.2.1
      (by decide)
  · exact (declared_field_length_validation rWbig rPbig rTbig
      1).2.2.2.2.2.2.2.2.1 _ (by decide)
  · exact (declared_field_length_validation rWbig rPbig rTbig
      1).2.2.2.2.2.2.2.2.2.1 _ (by decide)
  · exact (declared_field_length_validation rWbig rPbig rTbig
      1).2.2.2.2.2.2.2.2.2.2.1 _ (by decide)
  · exact (declared_field_length_validation rWbig rPgood rTbig
      1).2.2.2.2.2.2.2.2.2.2.2 _ (by decide)
